import Mathlib

/-!
Shallow embedding of `src/earnings_notifier.py` (a Discord earnings/news
notification bot) and verification of the specification claims about it.

Modelling conventions, used throughout:
* Python strings are Lean `String`; Python substring tests (`kw in text`)
  are `strContains`.
* Python `float` values flowing through the enricher/formatter are modelled
  as `ℚ`; `safe_float`'s NaN/None-to-None normalisation is modelled by
  `Option ℚ` (`none` = absent/NaN, exactly the values `safe_float` maps to
  `None`).
* Dictionaries with a fixed key set (the financials dict, the Discord embed)
  are structures; `dict.get k` is field projection returning `Option`.
* The network is an explicit input: HTTP responses received by
  `post_discord` are `Response` values passed in; the yfinance provider is
  an `Except Unit ProviderData` input (`.error` = any exception raised by
  the provider, which the source catches).
* The sent-ids ledger is a Python `set`; membership is modelled on
  `List String`. CPython set iteration order (`list(sent)`) is not
  insertion order and is hash-seed dependent, so `save_sent` takes the
  enumeration order as an explicit list (any permutation of the set).
* Side effects that carry no data (prints other than the error/warning
  prints recorded in `PostTrace`, `time.sleep(1)` pacing, counters) are not
  modelled.
-/

/-- Python substring containment `pat in s`, over the code points of `s`. -/
def strContains (s pat : String) : Bool :=
  (List.range (s.data.length + 1)).any (fun i => pat.data.isPrefixOf (s.data.drop i))

/-- Python `any(kw in s for kw in kws)`. -/
def containsAny (s : String) (kws : List String) : Bool :=
  kws.any (fun kw => strContains s kw)

/-- Python `s.isdigit()`: nonempty and every character a digit. -/
def pyIsDigit (s : String) : Bool :=
  !s.isEmpty && s.data.all Char.isDigit

/-- Python truthiness fallback `a or b` for strings. -/
def pyOr (a b : String) : String :=
  if a = "" then b else a

/-- `EDINET_SKIP`: the exclusion keyword list (earnings_notifier.py lines 23-27).
Only `classify_edinet` consults it; `classify_tdnet` has no exclusion list. -/
def EDINET_SKIP : List String :=
  ["有価証券報告書", "四半期報告書", "半期報告書",
   "臨時報告書", "内部統制報告書", "大量保有報告書",
   "変更報告書", "公開買付", "訂正", "有価証券届出書"]

/-- TDnet earnings keywords (classify_tdnet, line 108). -/
def tdnetEarningsKws : List String := ["決算短信", "四半期決算短信", "中間決算短信"]

/-- Guidance-revision keywords (lines 110 and 139, identical lists). -/
def revisionKws : List String := ["上方修正", "下方修正", "業績修正", "業績予想の修正"]

/-- Pharma keywords (lines 112 and 141, identical lists). -/
def pharmaKws : List String := ["薬事", "FDA", "治験", "新薬", "承認取得", "製造販売承認"]

/-- `classify_tdnet` (lines 106-114), on `item.get("title", "")`.
`None` (no category, the ignore outcome) is `none`. -/
def classify_tdnet (title : String) : Option String :=
  if containsAny title tdnetEarningsKws then some "earnings"
  else if containsAny title revisionKws then some "revision"
  else if containsAny title pharmaKws then some "pharma"
  else none

/-- `classify_edinet` (lines 135-143), on `doc.get("docDescription") or ""`. -/
def classify_edinet (desc : String) : Option String :=
  if containsAny desc EDINET_SKIP then none
  else if containsAny desc revisionKws then some "revision"
  else if containsAny desc pharmaKws then some "pharma"
  else none

/-- State of the persisted ledger file `sent_ids.json` as `load_sent` (lines
32-36) observes it: `missing` = file does not exist; `malformed` = the file
exists but `read_text`/`json.loads` raises (unreadable bytes or invalid
JSON), or the parsed value does not support `.get` — every path on which an
exception propagates; `wellFormed ids` = JSON object, `ids` = its `"ids"`
entry (`none` when the key is absent, in which case `data.get("ids", [])`
yields `[]`). -/
inductive FileState where
  | missing
  | malformed
  | wellFormed (ids : Option (List String))
deriving DecidableEq

/-- `load_sent` (lines 32-36). The function has no exception handler, so the
`malformed` case propagates the `json` exception to the caller: modelled as
`Except.error ()`. The returned Python `set(...)` is modelled by the id list
(membership is all that is consumed). -/
def load_sent : FileState → Except Unit (List String)
  | .missing => .ok []
  | .malformed => .error ()
  | .wellFormed ids => .ok (ids.getD [])

/-- `save_sent` (lines 38-40): `ids = list(sent)[-3000:]`. The argument is
the enumeration `list(sent)` (an arbitrary permutation of the set — CPython
sets do not preserve insertion order); the result is the id list written to
the file. `l[-3000:]` keeps the last 3000 elements. -/
def save_sent (order : List String) : List String :=
  order.drop (order.length - 3000)

/-- One HTTP response as `post_discord` observes it: the status code and the
parsed integer `Retry-After` header (`none` = header absent, in which case
`headers.get("Retry-After", 5)` yields 5). -/
structure Response where
  status : Nat
  retryAfter : Option Nat
deriving DecidableEq

/-- `status_code in (200, 204)` — the success test of line 316. -/
def isSuccessStatus (n : Nat) : Bool :=
  n == 200 || n == 204

/-- Observable behaviour of one `post_discord` call: number of HTTP POSTs
issued, the `time.sleep` duration if any, whether the non-2xx error print of
line 317 ran, and whether the empty-webhook warning of line 310 ran. -/
structure PostTrace where
  posts : Nat
  slept : Option Nat
  loggedError : Bool
  warnedEmpty : Bool
deriving DecidableEq

/-- A Discord embed payload (the dict built by the two `build_*_embed`
functions). `username` is the outer wrapper's bot name; `footer` the footer
text. The real-time `timestamp` field is not modelled. -/
structure Embed where
  username : String
  title : String
  description : String
  url : String
  color : Nat
  fields : List (String × String)
  footer : String
deriving DecidableEq

/-- `post_discord` (lines 308-319). `r1` is the response to the first POST
and `r2` to the retry POST, supplied by the environment. Note that the
source issues the retry (`requests.post(...)` on line 315) without binding
or inspecting its result, so `r2` is unused — the retry outcome is neither
checked nor logged. `payload` is never inspected either. -/
def post_discord (webhook_url : String) (payload : Embed) (r1 r2 : Response) : PostTrace :=
  if webhook_url = "" then
    { posts := 0, slept := none, loggedError := false, warnedEmpty := true }
  else if r1.status = 429 then
    { posts := 2, slept := some (r1.retryAfter.getD 5), loggedError := false, warnedEmpty := false }
  else if isSuccessStatus r1.status = false then
    { posts := 1, slept := none, loggedError := true, warnedEmpty := false }
  else
    { posts := 1, slept := none, loggedError := false, warnedEmpty := false }

/-- The `info` dict fields that `get_financials` reads (lines 200-204). -/
structure InfoMap where
  longName : Option String
  shortName : Option String
  sector : Option String
  totalDebt : Option ℚ
deriving DecidableEq

/-- A pandas DataFrame as `get_row` consumes it: the row index (labels) with
each row's values in descending period recency, `none` for NaN cells. -/
abbrev Frame : Type := List (String × List (Option ℚ))

/-- What one successful yfinance lookup yields: `tk.info`, `tk.financials`
(annual PL) and `tk.cashflow` (annual CF). -/
structure ProviderData where
  info : InfoMap
  fin : Frame
  cf : Frame

/-- `to_oku` (lines 158-161): yen to 億円 (divide by 1e8); absent stays absent. -/
def to_oku (v : Option ℚ) : Option ℚ :=
  v.map (fun f => f / 100000000)

/-- `get_row` (lines 172-181): for each keyword in priority order, collect the
index labels containing it as a substring; on the first keyword with a match
take that first label's row and return its two most recent values (absent
when the row is shorter or the cell is NaN). No keyword matching: `(None, None)`. -/
def get_row (df : Frame) : List String → Option ℚ × Option ℚ
  | [] => (none, none)
  | kw :: rest =>
    match (df : List (String × List (Option ℚ))).find? (fun p => strContains p.1 kw) with
    | some p => ((p.2[0]?).join, (p.2[1]?).join)
    | none => get_row df rest

/-- The dict returned by `get_financials` (lines 202-219). A key absent from
the Python dict (the `{}` returns) or mapped to `None` is `none`. -/
structure Financials where
  company : Option String := none
  sector : Option String := none
  revenue : Option ℚ := none
  revenue_prev : Option ℚ := none
  op_income : Option ℚ := none
  op_income_prev : Option ℚ := none
  pretax_income : Option ℚ := none
  pretax_prev : Option ℚ := none
  net_income : Option ℚ := none
  net_income_prev : Option ℚ := none
  total_debt : Option ℚ := none
  op_cf : Option ℚ := none
  inv_cf : Option ℚ := none
  fin_cf : Option ℚ := none
  fcf : Option ℚ := none
deriving DecidableEq

/-- The empty dict `{}` returned on a malformed ticker or provider error. -/
def Financials.empty : Financials := {}

/-- `get_financials` (lines 163-222). The ticker guard runs before the
`try`; everything after it is inside `try/except` whose handler returns
`{}`, so a provider failure (`prov = .error ()`) yields the empty dict and
no exception ever escapes. -/
def get_financials (ticker_jp : String) (prov : Except Unit ProviderData) : Financials :=
  if ticker_jp = "" ∨ pyIsDigit ticker_jp = false then Financials.empty
  else
    match prov with
    | .error _ => Financials.empty
    | .ok pd =>
      let rev := get_row pd.fin ["Total Revenue", "Revenue"]
      let op := get_row pd.fin ["Operating Income", "EBIT"]
      let pre := get_row pd.fin ["Pretax Income"]
      let inc := get_row pd.fin ["Net Income"]
      let opcf := get_row pd.cf ["Operating Cash Flow", "Cash From Operations"]
      let invcf := get_row pd.cf ["Investing Cash Flow", "Capital Expenditure"]
      let fincf := get_row pd.cf ["Financing Cash Flow"]
      let fcf : Option ℚ :=
        match opcf.1, invcf.1 with
        | some a, some b => some (a + b)
        | _, _ => none
      { company := some (pyOr (pd.info.longName.getD "") (pd.info.shortName.getD "")),
        sector := some (pd.info.sector.getD ""),
        revenue := to_oku rev.1,
        revenue_prev := to_oku rev.2,
        op_income := to_oku op.1,
        op_income_prev := to_oku op.2,
        pretax_income := to_oku pre.1,
        pretax_prev := to_oku pre.2,
        net_income := to_oku inc.1,
        net_income_prev := to_oku inc.2,
        total_debt := to_oku pd.info.totalDebt,
        op_cf := to_oku opcf.1,
        inv_cf := to_oku invcf.1,
        fin_cf := to_oku fincf.1,
        fcf := to_oku fcf }

/-- Rendering of a rational with one fixed decimal, modelling Python
`f-string` `:.1f` (the exact tie-breaking rounding mode of CPython is not
load-bearing for any claim; this uses round-half-up on the magnitude). -/
def fmtF1 (q : ℚ) : String :=
  let sign := if q < 0 then "-" else ""
  let n : ℕ := (⌊|q| * 10 + 1 / 2⌋).natAbs
  sign ++ toString (n / 10) ++ "." ++ toString (n % 10)

/-- Rendering of a rational with no decimals, modelling `:.0f`. -/
def fmtF0 (q : ℚ) : String :=
  let sign := if q < 0 then "-" else ""
  let n : ℕ := (⌊|q| + 1 / 2⌋).natAbs
  sign ++ toString n

/-- `fmt_oku` (lines 227-236): absent renders as the literal "N/A"; otherwise
three-tier unit scaling by magnitude. -/
def fmt_oku (value : Option ℚ) : String :=
  match value with
  | none => "N/A"
  | some v =>
    if |v| ≥ 10000 then fmtF1 (v / 10000) ++ "兆円"
    else if |v| ≥ 1 then fmtF1 v ++ "億円"
    else fmtF0 (v * 100) ++ "百万円"

/-- `fmt_yoy` (lines 238-245): blank when either value is absent or the prior
is zero; otherwise an arrow by sign and the percentage
`(c - p) / abs(p) * 100` rendered at one decimal of its magnitude. -/
def fmt_yoy (cur prev : Option ℚ) : String :=
  match cur, prev with
  | some c, some p =>
    if p = 0 then ""
    else
      let pct := (c - p) / |p| * 100
      let arrow := if 0 ≤ pct then "🔺" else "🔻"
      " " ++ arrow ++ fmtF1 |pct| ++ "%"
  | _, _ => ""

/-- `fs` (lines 247-251). The dict keys `cur_key`/`prev_key` are modelled as
field projections of `Financials`. -/
def fs (fin : Financials) (cur_key prev_key : Financials → Option ℚ) : String :=
  match cur_key fin with
  | none => "N/A"
  | some v => fmt_oku (some v) ++ fmt_yoy (some v) (prev_key fin)

/-- `fc` (lines 253-259). -/
def fc (fin : Financials) (key : Financials → Option ℚ) : String :=
  match key fin with
  | none => "N/A"
  | some v => fmt_oku (some v) ++ (if 0 ≤ v then " 🟢" else " 🔴")

/-- One TDnet record as emitted by `fetch_tdnet` (the dict of lines 95-98). -/
structure TdnetItem where
  id : String
  company : String
  ticker : String
  title : String
  time : String
  url : String
deriving DecidableEq

/-- One EDINET document as consumed by the main loop: the fields read from
the raw result dict (`docID`, `filerName`, `secCode`, `docDescription`),
each defaulted to `""` the way the `or`/`get` defaults do. -/
structure EdinetDoc where
  docID : String
  filerName : String
  secCode : String
  docDescription : String
deriving DecidableEq

/-- `build_earnings_embed` (lines 261-292). The `timestamp` of real time is
not modelled. -/
def build_earnings_embed (item : TdnetItem) (fin : Financials) : Embed :=
  let ticker := item.ticker.trim
  let company := pyOr (fin.company.getD "") item.company
  let sector := pyOr (fin.sector.getD "") "不明"
  let heading := "📊 " ++ company ++ (if ticker ≠ "" then "（" ++ ticker ++ "）" else "") ++ " 決算発表"
  { username := "決算Bot",
    title := heading,
    description := item.title,
    url := pyOr item.url "https://www.release.tdnet.info",
    color := 0x00b4d8,
    fields :=
      [("💹 売上高", fs fin (fun f => f.revenue) (fun f => f.revenue_prev)),
       ("🏭 営業利益", fs fin (fun f => f.op_income) (fun f => f.op_income_prev)),
       ("📋 経常利益(税前)", fs fin (fun f => f.pretax_income) (fun f => f.pretax_prev)),
       ("📈 純利益", fs fin (fun f => f.net_income) (fun f => f.net_income_prev)),
       ("🏦 有利子負債", fmt_oku fin.total_debt),
       ("​", "​"),
       ("💰 営業CF", fc fin (fun f => f.op_cf)),
       ("🔧 投資CF", fc fin (fun f => f.inv_cf)),
       ("💳 財務CF", fc fin (fun f => f.fin_cf)),
       ("📉 FCF", fc fin (fun f => f.fcf))],
    footer := "セクター: " ++ sector ++ " | ※前期比はyfinance年次データ | TDnet" }

/-- `build_news_embed` (lines 294-306). -/
def build_news_embed (company ticker title url doc_type source : String) : Embed :=
  let pair :=
    if doc_type = "revision" then
      ("🔄 業績修正", if strContains title "下方" then 0xe63946 else 0x2dc653)
    else if doc_type = "pharma" then ("💊 新薬・薬事承認", (0x9b5de5 : Nat))
    else ("📌 開示情報", (0xadb5bd : Nat))
  { username := "ニュースBot",
    title := pair.1 ++ "｜" ++ company ++ (if ticker ≠ "" then "（" ++ ticker ++ "）" else ""),
    description := title.take 200,
    url := url,
    color := pair.2,
    fields := [],
    footer := source }

/-- The two delivery destinations of the dispatcher. -/
inductive Channel where
  | earnings
  | news
deriving DecidableEq, BEq

/-- One iteration of the TDnet loop of `main` (lines 330-348) on one fetched
item. Returns the dispatch performed, if any (destination channel and the
`post_discord` trace), and the updated sent set. `hookE`/`hookN` are the two
webhook URLs, `prov` the yfinance environment, `r1`/`r2` the two possible
HTTP responses for this item's POST. The source adds `doc_id` to `sent`
(line 346) unconditionally after `post_discord`, whatever the responses. -/
def processTdnetItem (hookE hookN : String) (sent : List String) (item : TdnetItem)
    (prov : Except Unit ProviderData) (r1 r2 : Response) :
    Option (Channel × PostTrace) × List String :=
  match classify_tdnet item.title with
  | none => (none, sent)
  | some itype =>
    let doc_id := "tdnet_" ++ item.id
    if doc_id ∈ sent then (none, sent)
    else
      let ticker := item.ticker.trim
      let dispatch :=
        if itype = "earnings" then
          let fin := if ticker ≠ "" then get_financials ticker prov else Financials.empty
          (Channel.earnings, post_discord hookE (build_earnings_embed item fin) r1 r2)
        else
          (Channel.news,
           post_discord hookN (build_news_embed item.company ticker item.title item.url itype "TDnet") r1 r2)
      (some dispatch, sent ++ [doc_id])

/-- One iteration of the EDINET loop of `main` (lines 352-367) on one fetched
document. Note the source checks the sent set before classifying here and
always posts to the news webhook. -/
def processEdinetDoc (hookN : String) (sent : List String) (doc : EdinetDoc)
    (r1 r2 : Response) : Option (Channel × PostTrace) × List String :=
  let doc_id := "edinet_" ++ doc.docID
  if doc_id ∈ sent then (none, sent)
  else
    match classify_edinet doc.docDescription with
    | none => (none, sent)
    | some dtype =>
      let ticker := doc.secCode.trim
      let url := "https://disclosure2.edinet-fsa.go.jp/WZEK0040.aspx?S1" ++ doc.docID
      (some (Channel.news,
             post_discord hookN (build_news_embed doc.filerName ticker doc.docDescription url dtype "EDINET") r1 r2),
       sent ++ [doc_id])

/-- Concrete insertion-order tail for the capacity experiments: 3000 distinct
nonempty keys (the all-`a` strings of lengths 1 to 3000). -/
def c4Rest : List String :=
  (List.range 3000).map (fun i => String.mk (List.replicate (i + 1) 'a'))

/-- A concrete insertion sequence of 3001 distinct keys, oldest first: the
key "b" followed by `c4Rest`. -/
def c4KeysIns : List String := "b" :: c4Rest

/-- A set-enumeration order of the same 3001 keys that puts the oldest key
last — achievable, since CPython hashing of nonempty strings is
seed-randomised and `list(sent)` follows hash-table order, not insertion
order, so some hash seed places "b" after the all-`a` keys. -/
def c4Order : List String := c4Rest ++ ["b"]

/-- Concrete witness input for the capacity bound: 3001 distinct nonempty
keys (the all-`a` strings of lengths 1 to 3001). -/
def c4wKeys : List String :=
  (List.range 3001).map (fun i => String.mk (List.replicate (i + 1) 'a'))

/-! ## Helper lemmas -/

/-- The map from a repetition count to the all-`a` string of that length is
injective. -/
theorem mkReplicate_injective : Function.Injective (fun i : ℕ => String.mk (List.replicate i 'a')) := by
  intro a b h
  have h2 : List.replicate a 'a' = List.replicate b 'a' := congrArg String.data h
  have h3 := congrArg List.length h2
  simpa using h3

/-- The key "b" is not among the all-`a` keys. -/
theorem b_not_mem_c4Rest : "b" ∉ c4Rest := by
  intro h
  rw [c4Rest, List.mem_map] at h
  obtain ⟨i, _, hi⟩ := h
  have h2 : List.replicate (i + 1) 'a' = (['b'] : List Char) := congrArg String.data hi
  rw [List.replicate_succ] at h2
  injection h2 with h3 _
  exact absurd h3 (by decide)

/-- The `c4Rest` keys are pairwise distinct. -/
theorem c4Rest_nodup : c4Rest.Nodup :=
  List.Nodup.map (mkReplicate_injective.comp fun _ _ h => Nat.succ_injective h)
    (List.nodup_range 3000)

/-- The `c4wKeys` keys are pairwise distinct. -/
theorem c4wKeys_nodup : c4wKeys.Nodup :=
  List.Nodup.map (mkReplicate_injective.comp fun _ _ h => Nat.succ_injective h)
    (List.nodup_range 3001)

/-- A string beginning with three appended pieces after a space is nonempty. -/
theorem space_append_ne_empty (a b c : String) : (" " ++ a ++ b ++ c) ≠ "" := by
  intro h
  have hl := congrArg String.length h
  simp [String.length_append] at hl
  rw [show String.length " " = 1 from rfl] at hl
  omega

/-! ## Claim theorems -/

/-- C3, counterexample: the claim says loading never raises and a malformed
persisted ledger file loads as the empty ledger; but `load_sent` has no
exception handler, so on a malformed existing file `json.loads` raises and
no ledger value is returned at all. -/
theorem c3_load_counterexample : ¬∃ ids, load_sent FileState.malformed = Except.ok ids := by
  rintro ⟨ids, h⟩
  simp [load_sent] at h

/-- C3, amended: a missing ledger file (and a well-formed one, with or
without an `ids` entry) loads without raising, but an unreadable or
malformed existing file raises out of `load_sent` and aborts startup. -/
theorem c3_load_behavior :
    load_sent FileState.missing = Except.ok [] ∧
    load_sent FileState.malformed = Except.error () ∧
    (∀ ids, load_sent (FileState.wellFormed (some ids)) = Except.ok ids) ∧
    load_sent (FileState.wellFormed none) = Except.ok [] :=
  ⟨rfl, rfl, fun _ => rfl, rfl⟩

/-- C5, counterexample: a TDnet title containing both the exclusion keyword
"訂正" (a member of `EDINET_SKIP`) and the earnings keyword "決算短信"
classifies as `earnings`, not ignore — `classify_tdnet` consults no
exclusion list — and the document is dispatched to the earnings channel and
entered in the ledger. -/
theorem c5_exclusion_counterexample :
    "訂正" ∈ EDINET_SKIP ∧
    strContains "訂正：決算短信" "訂正" = true ∧
    strContains "訂正：決算短信" "決算短信" = true ∧
    classify_tdnet "訂正：決算短信" = some "earnings" ∧
    (processTdnetItem "e" "n" [] ⟨"9", "C", "", "訂正：決算短信", "", ""⟩
        (Except.error ()) ⟨200, none⟩ ⟨200, none⟩).1.map (fun d => d.1) = some Channel.earnings ∧
    "tdnet_9" ∈ (processTdnetItem "e" "n" [] ⟨"9", "C", "", "訂正：決算短信", "", ""⟩
        (Except.error ()) ⟨200, none⟩ ⟨200, none⟩).2 :=
  ⟨by decide, by decide, by decide, by decide, by decide, by decide⟩

/-- C5, amended: exclusion keywords dominate on the EDINET classification
path only — any EDINET description containing an `EDINET_SKIP` keyword
classifies as ignore, and the document is neither dispatched nor entered in
the ledger; the TDnet path applies no exclusion keywords. -/
theorem c5_edinet_exclusion_dominates (desc : String)
    (hskip : containsAny desc EDINET_SKIP = true) :
    classify_edinet desc = none ∧
    ∀ (hookN : String) (sent : List String) (doc : EdinetDoc) (r1 r2 : Response),
      doc.docDescription = desc →
      processEdinetDoc hookN sent doc r1 r2 = (none, sent) := by
  have hcls : classify_edinet desc = none := by simp [classify_edinet, hskip]
  refine ⟨hcls, ?_⟩
  intro hookN sent doc r1 r2 hdesc
  unfold processEdinetDoc
  by_cases hmem : "edinet_" ++ doc.docID ∈ sent
  · simp [hmem]
  · simp [hmem, hdesc, hcls]

/-- C5, witness for the amended theorem at a concrete excluded description. -/
theorem c5_edinet_exclusion_dominates_witness :
    classify_edinet "有価証券報告書" = none ∧
    processEdinetDoc "n" [] ⟨"d1", "F", "", "有価証券報告書"⟩ ⟨200, none⟩ ⟨200, none⟩ = (none, []) :=
  ⟨(c5_edinet_exclusion_dominates "有価証券報告書" (by decide)).1,
   (c5_edinet_exclusion_dominates "有価証券報告書" (by decide)).2 "n" [] _ _ _ rfl⟩

/-- C6: a TDnet title matching both an earnings keyword and a
guidance-revision keyword (and no exclusion keyword) classifies as
`earnings` — the earnings rule is evaluated first and the first matching
rule wins. -/
theorem c6_earnings_priority (title : String)
    (hE : containsAny title tdnetEarningsKws = true)
    (hR : containsAny title revisionKws = true)
    (hX : containsAny title EDINET_SKIP = false) :
    classify_tdnet title = some "earnings" := by
  simp [classify_tdnet, hE]

/-- C6, witness at a concrete title containing "決算短信" and "上方修正". -/
theorem c6_earnings_priority_witness :
    containsAny "決算短信 上方修正" tdnetEarningsKws = true ∧
    containsAny "決算短信 上方修正" revisionKws = true ∧
    containsAny "決算短信 上方修正" EDINET_SKIP = false ∧
    classify_tdnet "決算短信 上方修正" = some "earnings" :=
  ⟨by decide, by decide, by decide,
   c6_earnings_priority "決算短信 上方修正" (by decide) (by decide) (by decide)⟩

/-- C7, counterexample: on a first 429 with Retry-After 3 the dispatcher
does wait 3 and retry exactly once, but when the retry also returns 429 the
outcome is not logged as a failure — the retry's response is discarded
unexamined (`loggedError = false`), contradicting the claim's "it logs that
outcome as a failure". -/
theorem c7_retry_counterexample :
    (post_discord "h" (build_news_embed "C" "" "t" "u" "revision" "TDnet")
        ⟨429, some 3⟩ ⟨429, some 3⟩).posts = 2 ∧
    (post_discord "h" (build_news_embed "C" "" "t" "u" "revision" "TDnet")
        ⟨429, some 3⟩ ⟨429, some 3⟩).slept = some 3 ∧
    (post_discord "h" (build_news_embed "C" "" "t" "u" "revision" "TDnet")
        ⟨429, some 3⟩ ⟨429, some 3⟩).loggedError = false :=
  ⟨rfl, rfl, rfl⟩

/-- C7, amended: on a first 429 with a Retry-After of n the dispatcher waits
n time units and retries exactly once (two POSTs in total) without raising
or aborting the run, but the retry's response — success, 429 or any other
failure — is neither checked nor logged. -/
theorem c7_rate_limit_retry (url : String) (payload : Embed) (r1 r2 : Response) (n : Nat)
    (hurl : url ≠ "") (h429 : r1.status = 429) (hra : r1.retryAfter = some n) :
    post_discord url payload r1 r2 =
      { posts := 2, slept := some n, loggedError := false, warnedEmpty := false } := by
  simp [post_discord, hurl, h429, hra]

/-- C7, witness for the amended theorem at a concrete 429 exchange. -/
theorem c7_rate_limit_retry_witness :
    post_discord "h" (build_news_embed "C" "" "t" "u" "revision" "TDnet")
        ⟨429, some 3⟩ ⟨500, none⟩ =
      { posts := 2, slept := some 3, loggedError := false, warnedEmpty := false } :=
  c7_rate_limit_retry "h" (build_news_embed "C" "" "t" "u" "revision" "TDnet")
    ⟨429, some 3⟩ ⟨500, none⟩ 3 (by decide) rfl rfl

/-- C10: `classify_edinet` never yields the earnings category (only ignore,
revision or pharma), and every dispatch the EDINET loop performs goes to the
news channel — the earnings channel receives only TDnet-originated
documents. -/
theorem c10_edinet_routing :
    (∀ desc : String, classify_edinet desc = none ∨ classify_edinet desc = some "revision" ∨
      classify_edinet desc = some "pharma") ∧
    ∀ (hookN : String) (sent : List String) (doc : EdinetDoc) (r1 r2 : Response),
      ((processEdinetDoc hookN sent doc r1 r2).1.all fun d => d.1 == Channel.news) = true := by
  constructor
  · intro desc
    unfold classify_edinet
    by_cases h1 : containsAny desc EDINET_SKIP = true <;>
      by_cases h2 : containsAny desc revisionKws = true <;>
        by_cases h3 : containsAny desc pharmaKws = true <;>
          simp [h1, h2, h3]
  · intro hookN sent doc r1 r2
    unfold processEdinetDoc
    by_cases hmem : "edinet_" ++ doc.docID ∈ sent
    · simp [hmem]
    · cases hcls : classify_edinet doc.docDescription with
      | none => simp [hmem, hcls]
      | some dtype =>
        simp [hmem, hcls, Option.all]
        rfl

/-- C1, counterexample: a first-seen earnings document whose delivery POST
returns 500 (a non-success, non-429 response, logged as an error) still has
its key added to the sent-ids ledger — `main` calls `sent.add(doc_id)`
unconditionally after `post_discord`, so the document is not eligible for
retry on the next run. -/
theorem c1_failed_delivery_counterexample :
    isSuccessStatus 500 = false ∧
    (processTdnetItem "e" "n" [] ⟨"1", "C", "", "決算短信", "", ""⟩
        (Except.error ()) ⟨500, none⟩ ⟨500, none⟩).1.map (fun d => d.2.loggedError) = some true ∧
    "tdnet_1" ∈ (processTdnetItem "e" "n" [] ⟨"1", "C", "", "決算短信", "", ""⟩
        (Except.error ()) ⟨500, none⟩ ⟨500, none⟩).2 :=
  ⟨by decide, by decide, by decide⟩

/-- C1, amended: whenever a document is classified and not already in the
ledger, its key is added to the ledger in that run regardless of the
delivery responses — delivery failures are logged but the document is still
marked sent. -/
theorem c1_key_added_regardless (hookE hookN : String) (sent : List String) (item : TdnetItem)
    (prov : Except Unit ProviderData) (r1 r2 : Response) (ty : String)
    (hcls : classify_tdnet item.title = some ty)
    (hnew : ("tdnet_" ++ item.id) ∉ sent) :
    ("tdnet_" ++ item.id) ∈ (processTdnetItem hookE hookN sent item prov r1 r2).2 := by
  unfold processTdnetItem
  rw [hcls]
  simp [hnew]

/-- C1, witness for the amended theorem: the key is added even when both
responses are 500. -/
theorem c1_key_added_regardless_witness :
    ("tdnet_" ++ "1") ∈ (processTdnetItem "e" "n" [] ⟨"1", "C", "", "決算短信", "", ""⟩
        (Except.error ()) ⟨500, none⟩ ⟨500, none⟩).2 :=
  c1_key_added_regardless "e" "n" [] ⟨"1", "C", "", "決算短信", "", ""⟩
    (Except.error ()) ⟨500, none⟩ ⟨500, none⟩ "earnings" (by decide) (by decide)

/-- C2: after a document with key K is delivered and added to the ledger,
the ledger persisted (in any set-enumeration order, provided the set is
within the 3000-entry capacity so persistence retains every key) and
reloaded, offering a record with the same key K again yields no second
delivery: the first processing dispatches, the second is filtered by the
membership check before any dispatch. -/
theorem c2_dedup_idempotence
    (hookE hookN : String) (sent : List String) (item item2 : TdnetItem)
    (prov prov2 : Except Unit ProviderData) (r1 r2 r3 r4 : Response) (ty : String)
    (order loaded : List String)
    (hcls : classify_tdnet item.title = some ty)
    (hnew : ("tdnet_" ++ item.id) ∉ sent)
    (hperm : order.Perm ((processTdnetItem hookE hookN sent item prov r1 r2).2))
    (hcap : order.length ≤ 3000)
    (hload : load_sent (FileState.wellFormed (some (save_sent order))) = Except.ok loaded)
    (hid : item2.id = item.id) :
    (processTdnetItem hookE hookN sent item prov r1 r2).1.isSome = true ∧
    (processTdnetItem hookE hookN loaded item2 prov2 r3 r4).1 = none := by
  have h1 : (processTdnetItem hookE hookN sent item prov r1 r2).1.isSome = true := by
    unfold processTdnetItem
    rw [hcls]
    simp [hnew]
  have h2 : ("tdnet_" ++ item.id) ∈ (processTdnetItem hookE hookN sent item prov r1 r2).2 := by
    unfold processTdnetItem
    rw [hcls]
    simp [hnew]
  have hso : save_sent order = order := by
    show order.drop (order.length - 3000) = order
    rw [Nat.sub_eq_zero_of_le hcap]
    rfl
  rw [hso] at hload
  simp [load_sent] at hload
  have hmem : ("tdnet_" ++ item2.id) ∈ loaded := by
    rw [← hload, hid]
    exact hperm.mem_iff.mpr h2
  refine ⟨h1, ?_⟩
  unfold processTdnetItem
  cases hcls2 : classify_tdnet item2.title with
  | none => rfl
  | some ty2 => simp [hmem]

/-- C2, witness: a concrete earnings record delivered into an empty ledger,
persisted as a one-entry file, reloaded, and offered again. -/
theorem c2_dedup_idempotence_witness :
    (processTdnetItem "e" "n" [] ⟨"1", "C", "", "決算短信", "", ""⟩
        (Except.error ()) ⟨200, none⟩ ⟨200, none⟩).1.isSome = true ∧
    (processTdnetItem "e" "n" ["tdnet_1"] ⟨"1", "C", "", "決算短信", "", ""⟩
        (Except.error ()) ⟨200, none⟩ ⟨200, none⟩).1 = none :=
  c2_dedup_idempotence "e" "n" [] ⟨"1", "C", "", "決算短信", "", ""⟩
    ⟨"1", "C", "", "決算短信", "", ""⟩ (Except.error ()) (Except.error ())
    ⟨200, none⟩ ⟨200, none⟩ ⟨200, none⟩ ⟨200, none⟩ "earnings" ["tdnet_1"] ["tdnet_1"]
    (by decide) (by decide) (by decide) (by decide) rfl rfl

/-- C4, counterexample: an insertion sequence of 3001 distinct nonempty keys
(oldest key "b") together with an achievable set-enumeration order that
lists the oldest key last (nonempty-string hashes are seed-randomised, so
hash-table order need not follow insertion order). Persisting keeps the last
3000 of the enumeration order, which here retains the oldest key "b" and
drops a more recent one, so the retained entries are not the 3000 most
recently inserted. -/
theorem c4_fifo_counterexample :
    c4Order.Perm c4KeysIns ∧ c4KeysIns.Nodup ∧ c4KeysIns.length = 3000 + 1 ∧
    ¬(∀ k, k ∈ save_sent c4Order ↔ k ∈ c4KeysIns.drop 1) := by
  have hR : c4Rest.length = 3000 := by simp [c4Rest]
  have hlen : c4Order.length = 3001 := by simp [c4Order, hR]
  refine ⟨List.perm_append_singleton _ _, ?_, ?_, ?_⟩
  · exact List.nodup_cons.mpr ⟨b_not_mem_c4Rest, c4Rest_nodup⟩
  · simp [c4KeysIns, hR]
  · intro h
    have hsave : save_sent c4Order = c4Rest.drop 1 ++ ["b"] := by
      show c4Order.drop (c4Order.length - 3000) = _
      rw [hlen]
      show (c4Rest ++ ["b"]).drop 1 = _
      exact List.drop_append_of_le_length (by rw [hR]; omega)
    have hin : "b" ∈ save_sent c4Order := by
      rw [hsave]
      simp
    exact b_not_mem_c4Rest ((h "b").mp hin)

/-- C4, amended: after inserting C+M distinct keys (C = 3000, M > 0) and
persisting, the persisted ledger contains exactly C entries, pairwise
distinct, each one of the inserted keys — but which C keys are retained is
determined by the set-enumeration order, not by insertion age. -/
theorem c4_capacity_bound (keys order : List String) (M : ℕ) (hperm : order.Perm keys)
    (hnd : keys.Nodup) (hlen : keys.length = 3000 + M) (hM : 0 < M) :
    (save_sent order).length = 3000 ∧ (save_sent order).Nodup ∧
    ∀ k ∈ save_sent order, k ∈ keys := by
  have hol : order.length = 3000 + M := hperm.length_eq.trans hlen
  refine ⟨?_, ?_, ?_⟩
  · show (order.drop (order.length - 3000)).length = 3000
    rw [List.length_drop, hol]
    omega
  · exact List.Nodup.sublist (List.drop_sublist _ _) (hperm.nodup_iff.mpr hnd)
  · intro k hk
    exact hperm.mem_iff.mp (List.mem_of_mem_drop hk)

/-- C4, witness for the amended theorem at a concrete family of 3001
distinct nonempty keys enumerated in insertion order. -/
theorem c4_capacity_bound_witness :
    (save_sent c4wKeys).length = 3000 ∧ (save_sent c4wKeys).Nodup ∧
    ∀ k ∈ save_sent c4wKeys, k ∈ c4wKeys :=
  c4_capacity_bound c4wKeys c4wKeys 1 (List.Perm.refl _) c4wKeys_nodup
    (by simp [c4wKeys]) (by omega)

/-- C8: the enricher is total on every ticker input — a malformed ticker or
a provider error yields the empty result, a metric absent from the result
formats as the literal "N/A" in every formatter (`fs`, `fc`, `fmt_oku`),
and the earnings document is still dispatched and recorded whatever the
provider environment. -/
theorem c8_enricher_tolerance (t s : String) (prov prov2 : Except Unit ProviderData)
    (hookE hookN : String) (sent : List String) (item : TdnetItem) (r1 r2 : Response)
    (hbad : pyIsDigit t = false)
    (hcls : classify_tdnet item.title = some "earnings")
    (hnew : ("tdnet_" ++ item.id) ∉ sent) :
    get_financials t prov = Financials.empty ∧
    get_financials s (Except.error ()) = Financials.empty ∧
    (∀ (fin : Financials) (cur_key prev_key : Financials → Option ℚ),
      cur_key fin = none → fs fin cur_key prev_key = "N/A") ∧
    (∀ (fin : Financials) (key : Financials → Option ℚ),
      key fin = none → fc fin key = "N/A") ∧
    fmt_oku none = "N/A" ∧
    (processTdnetItem hookE hookN sent item prov2 r1 r2).1.map (fun d => d.1) = some Channel.earnings ∧
    ("tdnet_" ++ item.id) ∈ (processTdnetItem hookE hookN sent item prov2 r1 r2).2 := by
  refine ⟨?_, ?_, ?_, ?_, rfl, ?_, ?_⟩
  · simp [get_financials, hbad]
  · unfold get_financials
    by_cases h : s = "" ∨ pyIsDigit s = false
    · simp [h]
    · simp [h]
  · intro fin ck pk h
    simp [fs, h]
  · intro fin k h
    simp [fc, h]
  · unfold processTdnetItem
    rw [hcls]
    simp [hnew]
  · unfold processTdnetItem
    rw [hcls]
    simp [hnew]

/-- C8, witness: a non-digit ticker, an erroring provider, the empty result
formatted, and a concrete earnings item still delivered and recorded under
an erroring provider. -/
theorem c8_enricher_tolerance_witness :
    get_financials "72a3" (Except.error ()) = Financials.empty ∧
    get_financials "7203" (Except.error ()) = Financials.empty ∧
    fs Financials.empty (fun f => f.revenue) (fun f => f.revenue_prev) = "N/A" ∧
    fc Financials.empty (fun f => f.op_cf) = "N/A" ∧
    fmt_oku none = "N/A" ∧
    (processTdnetItem "e" "n" [] ⟨"8", "C", "7203", "決算短信", "", ""⟩
        (Except.error ()) ⟨200, none⟩ ⟨200, none⟩).1.map (fun d => d.1) = some Channel.earnings ∧
    ("tdnet_" ++ "8") ∈ (processTdnetItem "e" "n" [] ⟨"8", "C", "7203", "決算短信", "", ""⟩
        (Except.error ()) ⟨200, none⟩ ⟨200, none⟩).2 := by
  have h := c8_enricher_tolerance "72a3" "7203" (Except.error ()) (Except.error ()) "e" "n" []
    ⟨"8", "C", "7203", "決算短信", "", ""⟩ ⟨200, none⟩ ⟨200, none⟩
    (by decide) (by decide) (by decide)
  exact ⟨h.1, h.2.1, h.2.2.1 _ _ _ rfl, h.2.2.2.1 _ _ rfl, h.2.2.2.2.1,
    h.2.2.2.2.2.1, h.2.2.2.2.2.2⟩

/-- C9: the year-over-year suffix is blank exactly when the current value is
absent, the prior is absent, or the prior is zero; otherwise the rendered
percentage is `(current - prior) / abs(prior) * 100`, with the arrow chosen
by its sign and its magnitude rendered at one decimal. -/
theorem c9_yoy_formula (cur prev : Option ℚ) :
    (fmt_yoy cur prev = "" ↔ cur = none ∨ prev = none ∨ prev = some 0) ∧
    ∀ c p : ℚ, cur = some c → prev = some p → p ≠ 0 →
      fmt_yoy cur prev =
        " " ++ (if 0 ≤ (c - p) / |p| * 100 then "🔺" else "🔻")
          ++ fmtF1 |(c - p) / |p| * 100| ++ "%" := by
  constructor
  · constructor
    · intro h
      cases cur with
      | none => exact Or.inl rfl
      | some c =>
        cases prev with
        | none => exact Or.inr (Or.inl rfl)
        | some p =>
          by_cases hp : p = 0
          · exact Or.inr (Or.inr (by rw [hp]))
          · exfalso
            rw [fmt_yoy] at h
            simp only [hp, if_false] at h
            simp [hp] at h
            exact space_append_ne_empty _ _ _ h
    · intro h
      rcases h with h | h | h
      · subst h
        cases prev <;> rfl
      · subst h
        cases cur <;> rfl
      · subst h
        cases cur with
        | none => rfl
        | some c => simp [fmt_yoy]
  · intro c p hc hp hpne
    subst hc
    subst hp
    simp [fmt_yoy, hpne]

/-- C9, witness at concrete values 10 and 5 (blank-iff instance and the
formula instance). -/
theorem c9_yoy_formula_witness :
    (fmt_yoy (some (10 : ℚ)) (some (5 : ℚ)) = "" ↔
      (some (10 : ℚ)) = none ∨ (some (5 : ℚ)) = none ∨ (some (5 : ℚ)) = some 0) ∧
    fmt_yoy (some (10 : ℚ)) (some (5 : ℚ)) =
      " " ++ (if 0 ≤ ((10 : ℚ) - 5) / |(5 : ℚ)| * 100 then "🔺" else "🔻")
        ++ fmtF1 |((10 : ℚ) - 5) / |(5 : ℚ)| * 100| ++ "%" :=
  ⟨(c9_yoy_formula (some 10) (some 5)).1,
   (c9_yoy_formula (some 10) (some 5)).2 10 5 rfl rfl (by norm_num)⟩
